import Mathlib

/-!
# Verification of the pyansys-geometry parametrization core

Shallow embedding of `ansys/geometry/core/geometry/parameterization.py` and
`ansys/geometry/core/geometry/surfaces/plane.py`, with theorems settling the
behaviour of `Interval`, `ParamUV`, `Plane` and `PlaneEvaluation`.

Python numbers (`Real`) are modelled as rationals, extended with the two IEEE
infinities (`np.NINF`, `np.inf`) that the interval code manipulates.  NaN never
arises in the embedded fragments.  Python exceptions are modelled with
`Except PyErr`.
-/

namespace PyGeom

/-- A Python `Real` value as used by the interval code: a finite number
(modelled as a rational) or one of the two IEEE infinities. -/
inductive XReal where
  | negInf : XReal
  | fin (q : ℚ) : XReal
  | posInf : XReal
deriving DecidableEq, Repr

namespace XReal

/-- The float comparison `a <= b` (no NaN operand ever arises here). -/
def ble : XReal → XReal → Bool
  | negInf, _ => true
  | fin _, negInf => false
  | fin a, fin b => decide (a ≤ b)
  | fin _, posInf => true
  | posInf, posInf => true
  | posInf, _ => false

/-- The float comparison `a < b`. -/
def blt : XReal → XReal → Bool
  | negInf, negInf => false
  | negInf, _ => true
  | fin _, negInf => false
  | fin a, fin b => decide (a < b)
  | fin _, posInf => true
  | posInf, _ => false

/-- Python `min(a, b)`: keeps the first argument unless the second is strictly
smaller. -/
def pymin (a b : XReal) : XReal := if blt b a then b else a

/-- Python `max(a, b)`: keeps the first argument unless the second is strictly
larger. -/
def pymax (a b : XReal) : XReal := if blt a b then b else a

/-- Embeds `np.isneginf`: true exactly on negative infinity. -/
def isneginf : XReal → Bool
  | negInf => true
  | _ => false

/-- Embeds `np.isinf`: true on BOTH infinities (sign is ignored). -/
def isinf : XReal → Bool
  | negInf => true
  | posInf => true
  | fin _ => false

/-- Subtraction of a finite value from an extended value (`self.start - delta`,
`self.start - t`, ...). -/
def subFin : XReal → ℚ → XReal
  | negInf, _ => negInf
  | posInf, _ => posInf
  | fin a, q => fin (a - q)

/-- Addition of a finite value to an extended value (`self.end + delta`). -/
def addFin : XReal → ℚ → XReal
  | negInf, _ => negInf
  | posInf, _ => posInf
  | fin a, q => fin (a + q)

/-- Subtraction of an extended value from a finite value (`t - self.end`). -/
def finSub (q : ℚ) : XReal → XReal
  | negInf => posInf
  | posInf => negInf
  | fin a => fin (q - a)

theorem ble_refl (a : XReal) : ble a a = true := by
  cases a <;> simp [ble]

theorem ble_of_blt {a b : XReal} (h : blt a b = true) : ble a b = true := by
  cases a <;> cases b <;> simp_all [ble, blt] <;> exact le_of_lt h

theorem ble_trans {a b c : XReal} (h₁ : ble a b = true) (h₂ : ble b c = true) :
    ble a c = true := by
  cases a <;> cases b <;> cases c <;> simp_all [ble] <;> exact le_trans h₁ h₂

theorem blt_eq_false_of_ble {a b : XReal} (h : ble a b = true) :
    blt b a = false := by
  cases a <;> cases b <;> simp_all [ble, blt] <;> exact not_lt.mpr h

theorem ble_pymin_left (a b : XReal) : ble (pymin a b) a = true := by
  unfold pymin
  by_cases h : blt b a = true
  · simp [h, ble_of_blt h]
  · simp [Bool.not_eq_true] at h
    simp [h, ble_refl]

theorem ble_pymax_left (a b : XReal) : ble a (pymax a b) = true := by
  unfold pymax
  by_cases h : blt a b = true
  · simp [h, ble_of_blt h]
  · simp [Bool.not_eq_true] at h
    simp [h, ble_refl]

end XReal

/-- The Python exceptions raised by the embedded fragments.
`typeValidationError` is the violation raised by the `beartype`
`@check_input_types` decorator when an argument fails its type hint;
`invalidMethodOnEmptyObject` is the generic `Exception("Invalid Method On
Empty Object Exception...")` raised by `Interval.inflate`. -/
inductive PyErr where
  | valueError : PyErr
  | typeError : PyErr
  | attributeError : PyErr
  | zeroDivisionError : PyErr
  | notImplementedError : PyErr
  | typeValidationError : PyErr
  | invalidMethodOnEmptyObject : PyErr
deriving DecidableEq, Repr

/-- Embeds `ParamUV`: a 2-component parametric coordinate (source lines 33-140). -/
structure ParamUV where
  u : ℚ
  v : ℚ
deriving DecidableEq, Repr

namespace ParamUV

/-- Embeds `ParamUV.__add__`. -/
def add (a b : ParamUV) : ParamUV := ⟨a.u + b.u, a.v + b.v⟩

/-- Embeds `ParamUV.__sub__`. -/
def sub (a b : ParamUV) : ParamUV := ⟨a.u - b.u, a.v - b.v⟩

/-- Embeds `ParamUV.__mul__`. -/
def mul (a b : ParamUV) : ParamUV := ⟨a.u * b.u, a.v * b.v⟩

/-- Embeds `ParamUV.__truediv__`: `self._u / other._u` is Python number division,
which raises `ZeroDivisionError` on a zero divisor (the u component is divided
first, then the v component). -/
def truediv (a b : ParamUV) : Except PyErr ParamUV :=
  if b.u = 0 then .error .zeroDivisionError
  else if b.v = 0 then .error .zeroDivisionError
  else .ok ⟨a.u / b.u, a.v / b.v⟩

end ParamUV

/-- The `Interval` object: the stored bounds `_start` and `_end` plus the
public `not_empty` attribute (always set to `True` by `__init__`, but a plain
mutable attribute on the object). `end` is a Lean keyword, hence `end_`. -/
structure Interval where
  start : XReal
  end_ : XReal
  notEmpty : Bool
deriving DecidableEq, Repr

namespace Interval

/-- Embeds `Interval.__init__`: raises `ValueError` when `end < start`; otherwise
stores the bounds and sets `not_empty = True`. -/
def init (s e : XReal) : Except PyErr Interval :=
  if XReal.blt e s then .error .valueError
  else .ok ⟨s, e, true⟩

/-- Embeds `Interval.is_empty`: `not self.not_empty`. -/
def is_empty (i : Interval) : Bool := !i.notEmpty

/-- Embeds `Interval.is_open`: `np.isneginf(self.start) and np.isinf(self.end)`. -/
def is_open (i : Interval) : Bool := i.start.isneginf && i.end_.isinf

/-- Embeds `Interval.is_closed`: `self.start > np.NINF and self.end < np.inf`. -/
def is_closed (i : Interval) : Bool :=
  XReal.blt XReal.negInf i.start && XReal.blt i.end_ XReal.posInf

/-- Embeds `Interval.unite`: empty operands yield the other operand; otherwise the
interval spanning the min of the starts and the max of the ends is
constructed through `__init__`. -/
def unite (first second : Interval) : Except PyErr Interval :=
  if first.is_empty then .ok second
  else if second.is_empty then .ok first
  else init (XReal.pymin first.start second.start)
    (XReal.pymax first.end_ second.end_)

/-- Embeds `Interval.intersect`: when either operand is empty the source returns
`None` ("supposed to be empty").  Otherwise it evaluates
`Interval(max(first.start, second.start), min(first.end, second.send))`;
`Interval` defines no attribute `send`, so the attribute lookup
`second.send` raises `AttributeError` before any interval is produced. -/
def intersect (first second : Interval) (tolerance : ℚ) :
    Except PyErr (Option Interval) :=
  if first.is_empty || second.is_empty then .ok none
  else .error .attributeError

/-- The first, two-parameter definition of `Interval.contains` (source lines
294-318).  In Python the later single-parameter definition replaces it in the
class namespace, so this body is unreachable from the class; it is embedded
under the name `contains_shadowed` for reference. -/
def contains_shadowed (i : Interval) (t accuracy : ℚ) : Bool :=
  if i.is_empty then false
  else
    let naa : XReal := XReal.fin (-|accuracy|)
    if XReal.blt i.end_ i.start then
      if XReal.blt (i.start.subFin t) naa then false
      else if XReal.blt (XReal.finSub t i.end_) naa then false
      else true
    else
      if XReal.blt (XReal.finSub t i.start) naa then false
      else if XReal.blt (i.end_.subFin t) naa then false
      else true

/-- The `contains` attribute actually bound on the class: the second,
single-parameter definition (source lines 320-332).  Its body invokes
`self.contains(t, Accuracy.length_accuracy)`, and the name `contains` resolves
to this same single-parameter method, so every call raises `TypeError`
(3 positional arguments passed to a 2-parameter function). -/
def contains (i : Interval) (t : ℚ) : Except PyErr Bool := .error .typeError

/-- Embeds `Interval.inflate`: raises the invalid-method-on-empty-object `Exception`
on an empty interval, otherwise constructs
`Interval(self.start - delta, self.end + delta)` through `__init__`. -/
def inflate (i : Interval) (delta : ℚ) : Except PyErr Interval :=
  if i.is_empty then .error .invalidMethodOnEmptyObject
  else init (i.start.subFin delta) (i.end_.addFin delta)

end Interval

/-- A 3D vector over the rationals, standing for the math library's `Point3D`,
`Vector3D` and `UnitVector3D` value types (components are the only data the
embedded fragments touch). -/
structure Vec3 where
  x : ℚ
  y : ℚ
  z : ℚ
deriving DecidableEq, Repr

namespace Vec3

/-- Componentwise vector addition. -/
def add (a b : Vec3) : Vec3 := ⟨a.x + b.x, a.y + b.y, a.z + b.z⟩

/-- Scalar multiplication. -/
def smul (c : ℚ) (a : Vec3) : Vec3 := ⟨c * a.x, c * a.y, c * a.z⟩

/-- Euclidean cross product. -/
def cross (a b : Vec3) : Vec3 :=
  ⟨a.y * b.z - a.z * b.y, a.z * b.x - a.x * b.z, a.x * b.y - a.y * b.x⟩

instance : Add Vec3 := ⟨add⟩

instance : SMul ℚ Vec3 := ⟨smul⟩

theorem add_def (a b : Vec3) : a + b = ⟨a.x + b.x, a.y + b.y, a.z + b.z⟩ := rfl

theorem smul_def (c : ℚ) (a : Vec3) : c • a = ⟨c * a.x, c * a.y, c * a.z⟩ := rfl

end Vec3

/-- Modelled from the spec: `Accuracy.equal_doubles` (the module
`misc/accuracy.py` is not under `src/`): true iff `|a - b|` is below a fixed
global epsilon, taken here as `1e-8`. -/
def equal_doubles_fin (a b : ℚ) : Bool := decide (|a - b| < 1 / 100000000)

/-- Embeds `Accuracy.equal_doubles` lifted to the extended reals: with an infinite
operand the float difference is `±inf` or NaN, and neither compares below the
epsilon. -/
def equal_doubles (a b : XReal) : Bool :=
  match a, b with
  | .fin x, .fin y => equal_doubles_fin x y
  | _, _ => false

/-- Modelled from the spec: equality of the math value types (`Point3D`,
`UnitVector3D`; the math module is not under `src/`) is componentwise and
tolerance-based. -/
def vec_eq (a b : Vec3) : Bool :=
  equal_doubles_fin a.x b.x && equal_doubles_fin a.y b.y &&
    equal_doubles_fin a.z b.z

/-- The `Plane` object: the stored `_origin`, `_reference` and `_axis`
(source lines 64-78; the perpendicularity validation of `__init__` restricts
which planes are constructible but stores nothing further). -/
structure Plane where
  origin : Vec3
  reference : Vec3
  axis : Vec3
deriving DecidableEq, Repr

namespace Plane

/-- Embeds `Plane.dir_x`: the stored reference direction. -/
def dir_x (p : Plane) : Vec3 := p.reference

/-- Embeds `Plane.dir_z`: the stored axis direction. -/
def dir_z (p : Plane) : Vec3 := p.axis

/-- Embeds `Plane.dir_y`: `self.dir_z.cross(self.dir_x)`, recomputed on access. -/
def dir_y (p : Plane) : Vec3 := Vec3.cross p.dir_z p.dir_x

/-- Embeds `Plane.contains_param`: `raise NotImplementedError(...)`. -/
def contains_param (p : Plane) (param : ParamUV) : Except PyErr Bool :=
  .error .notImplementedError

/-- Embeds `Plane.contains_point`: `raise NotImplementedError(...)`. -/
def contains_point (p : Plane) (point : Vec3) : Except PyErr Bool :=
  .error .notImplementedError

end Plane

/-- Embeds `PlaneEvaluation`: stores the plane and the parameter it was evaluated
at (source lines 159-162). -/
structure PlaneEvaluation where
  plane : Plane
  parameter : ParamUV
deriving DecidableEq, Repr

/-- Embeds `Plane.evaluate`: `return PlaneEvaluation(self, parameter)`. -/
def Plane.evaluate (p : Plane) (parameter : ParamUV) : PlaneEvaluation :=
  ⟨p, parameter⟩

namespace PlaneEvaluation

/-- Embeds `PlaneEvaluation.position`:
`self.plane.origin + self.parameter.u * self.plane.dir_x
  + self.parameter.v * self.plane.dir_y`. -/
def position (e : PlaneEvaluation) : Vec3 :=
  e.plane.origin + e.parameter.u • e.plane.dir_x + e.parameter.v • e.plane.dir_y

/-- Embeds `PlaneEvaluation.u_derivative`: `return self.plane.dir_z` (as written in
the source, not the geometrically expected `dir_x`). -/
def u_derivative (e : PlaneEvaluation) : Vec3 := e.plane.dir_z

/-- Embeds `PlaneEvaluation.v_derivative`: `return self.plane.dir_y`. -/
def v_derivative (e : PlaneEvaluation) : Vec3 := e.plane.dir_y

end PlaneEvaluation

/-- A Python value handed to an `__eq__` method: an `Interval`, a `Plane`, or
some unrelated object (represented by an opaque tag). -/
inductive PyObj where
  | interval (i : Interval) : PyObj
  | plane (p : Plane) : PyObj
  | other (tag : Nat) : PyObj
deriving DecidableEq, Repr

/-- Embeds `Interval.__eq__`: returns `NotImplemented` (modelled as `none`) for any
operand that is not an `Interval`; otherwise empty intervals compare by
emptiness and non-empty ones by `Accuracy.equal_doubles` on both bounds. -/
def Interval.eq (self : Interval) : PyObj → Option Bool
  | .interval other =>
      if self.is_empty || other.is_empty then
        some (self.is_empty && other.is_empty)
      else
        some (equal_doubles self.start other.start &&
          equal_doubles self.end_ other.end_)
  | _ => none

/-- Embeds `Plane.__eq__`: the `@check_input_types` (beartype) decorator rejects any
argument that is not a `Plane` with a type-validation error before the body
runs; for a `Plane` operand the stored origin, reference and axis are compared
with the value types' own (tolerance-based) equality. -/
def Plane.eq (self : Plane) : PyObj → Except PyErr Bool
  | .plane other =>
      .ok (vec_eq self.origin other.origin &&
        vec_eq self.reference other.reference && vec_eq self.axis other.axis)
  | _ => .error .typeValidationError

/-! ## Supporting lemmas -/

/-- The logic of the shadowed two-parameter `contains` definition on a finite,
properly ordered, non-empty interval: it accepts exactly the values of the
interval widened by `|accuracy|` on both sides.  (This body is unreachable in
the source because the single-parameter definition replaces it.) -/
theorem contains_shadowed_spec (s e t accuracy : ℚ) (h : s ≤ e) :
    Interval.contains_shadowed ⟨XReal.fin s, XReal.fin e, true⟩ t accuracy
        = true ↔
      (s - |accuracy| ≤ t ∧ t ≤ e + |accuracy|) := by
  have h1 : ¬ e < s := not_lt.mpr h
  simp only [Interval.contains_shadowed, Interval.is_empty, XReal.blt,
    XReal.subFin, XReal.finSub, Bool.not_true, h1]
  by_cases h2 : t - s < -|accuracy| <;> by_cases h3 : e - t < -|accuracy|
  · simp [h2, h3]
    intro h4
    linarith
  · simp [h2, h3]
    intro h4
    linarith
  · simp [h2, h3]
    intro h4
    linarith
  · simp [h2, h3]
    constructor <;> linarith

/-! ## Claims -/

/-- C1: the spec's `intersect(a, b, tolerance)` returns the intersection
`[max(a.start,b.start), min(a.end,b.end)]` for non-empty operands, but the
source evaluates `second.send`, an attribute `Interval` does not define, so
every call with two non-empty operands raises `AttributeError`; only the
empty-operand branch behaves as claimed (returning `None`). -/
theorem intersect_raises_attribute_error :
    Interval.intersect ⟨XReal.fin 0, XReal.fin 2, true⟩
        ⟨XReal.fin 1, XReal.fin 3, true⟩ (1 / 1000)
        = .error .attributeError ∧
    Interval.intersect ⟨XReal.fin 0, XReal.fin 2, false⟩
        ⟨XReal.fin 1, XReal.fin 3, true⟩ (1 / 1000) = .ok none :=
  ⟨rfl, rfl⟩

/-- C2: the spec's `Interval(0,10).contains(5)` and
`Interval(0,10).contains(10.0000001, 0.001)` should be true, but the second
definition of `contains` shadows the two-parameter one, so the `contains`
bound on the class raises `TypeError` on every call (its body passes two
arguments to the single-parameter method found by name resolution). -/
theorem contains_call_raises_type_error :
    Interval.contains ⟨XReal.fin 0, XReal.fin 10, true⟩ 5
        = .error .typeError ∧
    Interval.contains ⟨XReal.fin 0, XReal.fin 10, true⟩ (10 + 1 / 10000000)
        = .error .typeError :=
  ⟨rfl, rfl⟩

/-- C3 counterexample: dividing by a `ParamUV` with a zero u component raises
`ZeroDivisionError`, refuting the claim that division never fails. -/
theorem truediv_zero_divisor_raises :
    ParamUV.truediv ⟨2, 4⟩ ⟨0, 2⟩ = .error .zeroDivisionError ∧
    (ParamUV.truediv ⟨2, 4⟩ ⟨0, 2⟩).isOk = false :=
  ⟨rfl, rfl⟩

/-- C3 (amended): the four binary operators combine the u and v components
pairwise; `+`, `-`, `*` never fail; `/` combines componentwise whenever both
divisor components are nonzero and raises `ZeroDivisionError` when either
divisor component is zero. -/
theorem paramUV_operators_componentwise (a b : ParamUV) :
    ParamUV.add a b = ⟨a.u + b.u, a.v + b.v⟩ ∧
    ParamUV.sub a b = ⟨a.u - b.u, a.v - b.v⟩ ∧
    ParamUV.mul a b = ⟨a.u * b.u, a.v * b.v⟩ ∧
    (b.u ≠ 0 → b.v ≠ 0 →
      ParamUV.truediv a b = .ok ⟨a.u / b.u, a.v / b.v⟩) ∧
    ((b.u = 0 ∨ b.v = 0) →
      ParamUV.truediv a b = .error .zeroDivisionError) := by
  refine ⟨rfl, rfl, rfl, ?_, ?_⟩
  · intro hu hv
    simp [ParamUV.truediv, hu, hv]
  · rintro (h | h) <;> simp [ParamUV.truediv, h]

/-- Witness for C3 (amended): the spec's own examples
`ParamUV(2,4) / ParamUV(2,2) == ParamUV(1,2)` and
`ParamUV(1,2) + ParamUV(3,4) == ParamUV(4,6)`. -/
theorem paramUV_operators_componentwise_witness :
    ParamUV.truediv ⟨2, 4⟩ ⟨2, 2⟩ = .ok ⟨1, 2⟩ ∧
    ParamUV.add ⟨1, 2⟩ ⟨3, 4⟩ = ⟨4, 6⟩ := by
  constructor
  · have h := (paramUV_operators_componentwise ⟨2, 4⟩ ⟨2, 2⟩).2.2.2.1
      (by norm_num) (by norm_num)
    rw [h]
    norm_num
  · have h := (paramUV_operators_componentwise ⟨1, 2⟩ ⟨3, 4⟩).1
    rw [h]
    norm_num

/-- C4: for every plane and parameter, the evaluation's `u_derivative` is the
plane's `dir_z` and its `v_derivative` is the plane's `dir_y`, exactly as
written in the source (the naming artifact); on the standard plane the
u-derivative is therefore the z axis, not the x axis `dir_x` returns. -/
theorem plane_evaluation_derivative_naming_artifact (p : Plane)
    (param : ParamUV) :
    (PlaneEvaluation.mk p param).u_derivative = p.dir_z ∧
    (PlaneEvaluation.mk p param).v_derivative = p.dir_y ∧
    (PlaneEvaluation.mk ⟨⟨0, 0, 0⟩, ⟨1, 0, 0⟩, ⟨0, 0, 1⟩⟩
        ⟨0, 0⟩).u_derivative = ⟨0, 0, 1⟩ ∧
    Plane.dir_x ⟨⟨0, 0, 0⟩, ⟨1, 0, 0⟩, ⟨0, 0, 1⟩⟩ = ⟨1, 0, 0⟩ :=
  ⟨rfl, rfl, rfl, rfl⟩

/-- C5: evaluating a plane at `ParamUV(u, v)` yields the position
`origin + u*dir_x + v*dir_y`; in particular evaluation at `(0,0)` returns the
origin and evaluation at `(1,0)` returns `origin + dir_x`. -/
theorem plane_evaluation_position_formula (p : Plane) (u v : ℚ) :
    (p.evaluate ⟨u, v⟩).position
        = p.origin + u • p.dir_x + v • p.dir_y ∧
    (p.evaluate ⟨0, 0⟩).position = p.origin ∧
    (p.evaluate ⟨1, 0⟩).position = p.origin + p.dir_x := by
  refine ⟨rfl, ?_, ?_⟩ <;>
    simp [Plane.evaluate, PlaneEvaluation.position, Vec3.add_def,
      Vec3.smul_def]

/-- C6: for two non-empty well-formed intervals, `unite` returns the interval
from the min of the starts to the max of the ends; when the first operand is
empty it returns the second, and when only the second is empty it returns the
first. -/
theorem unite_bounds (a b : Interval)
    (ha : XReal.ble a.start a.end_ = true)
    (hb : XReal.ble b.start b.end_ = true) :
    (a.notEmpty = true → b.notEmpty = true →
      Interval.unite a b =
        .ok ⟨XReal.pymin a.start b.start, XReal.pymax a.end_ b.end_, true⟩) ∧
    (a.notEmpty = false → Interval.unite a b = .ok b) ∧
    (b.notEmpty = false → a.notEmpty = true →
      Interval.unite a b = .ok a) := by
  refine ⟨?_, ?_, ?_⟩
  · intro hA hB
    have h1 : XReal.ble (XReal.pymin a.start b.start)
        (XReal.pymax a.end_ b.end_) = true :=
      XReal.ble_trans (XReal.ble_trans (XReal.ble_pymin_left _ _) ha)
        (XReal.ble_pymax_left _ _)
    have h2 := XReal.blt_eq_false_of_ble h1
    simp [Interval.unite, Interval.is_empty, hA, hB, Interval.init, h2]
  · intro hA
    simp [Interval.unite, Interval.is_empty, hA]
  · intro hB hA
    simp [Interval.unite, Interval.is_empty, hA, hB]

/-- Witness for C6: uniting `[0,1]` and `[2,3]` yields `[0,3]`. -/
theorem unite_bounds_witness :
    Interval.unite ⟨XReal.fin 0, XReal.fin 1, true⟩
        ⟨XReal.fin 2, XReal.fin 3, true⟩
      = .ok ⟨XReal.fin 0, XReal.fin 3, true⟩ := by
  have h := (unite_bounds ⟨XReal.fin 0, XReal.fin 1, true⟩
    ⟨XReal.fin 2, XReal.fin 3, true⟩ (by decide) (by decide)).1 rfl rfl
  rw [h]
  congr 1

/-- C7 counterexample: inflating the non-empty interval `[0,1]` by the delta
`-5` does not return the interval with bounds `(5, -4)` claimed by the spec;
the constructor check `end < start` raises `ValueError` instead. -/
theorem inflate_negative_delta_raises :
    Interval.inflate ⟨XReal.fin 0, XReal.fin 1, true⟩ (-5)
        = .error .valueError ∧
    (Interval.inflate ⟨XReal.fin 0, XReal.fin 1, true⟩ (-5)).isOk = false := by
  have h : Interval.inflate ⟨XReal.fin 0, XReal.fin 1, true⟩ (-5)
      = .error .valueError := by
    simp only [Interval.inflate, Interval.is_empty, Interval.init,
      XReal.addFin, XReal.subFin, XReal.blt, Bool.not_true]
    norm_num
  exact ⟨h, by rw [h]; rfl⟩

/-- C7 (amended): on a non-empty interval, `inflate(delta)` returns the
interval with bounds `(start - delta, end + delta)` when those bounds are
ordered, and raises `ValueError` (from the constructor) when
`end + delta < start - delta`; on an empty interval it raises the
invalid-method-on-empty-object error. -/
theorem inflate_behaviour (i : Interval) (delta : ℚ) :
    (i.notEmpty = true →
      XReal.blt (i.end_.addFin delta) (i.start.subFin delta) = false →
      i.inflate delta
        = .ok ⟨i.start.subFin delta, i.end_.addFin delta, true⟩) ∧
    (i.notEmpty = true →
      XReal.blt (i.end_.addFin delta) (i.start.subFin delta) = true →
      i.inflate delta = .error .valueError) ∧
    (i.notEmpty = false →
      i.inflate delta = .error .invalidMethodOnEmptyObject) := by
  refine ⟨?_, ?_, ?_⟩
  · intro h1 h2
    simp [Interval.inflate, Interval.is_empty, h1, Interval.init, h2]
  · intro h1 h2
    simp [Interval.inflate, Interval.is_empty, h1, Interval.init, h2]
  · intro h1
    simp [Interval.inflate, Interval.is_empty, h1]

/-- Witness for C7 (amended): inflating `[0,10]` by `1` yields `[-1,11]`. -/
theorem inflate_behaviour_witness :
    Interval.inflate ⟨XReal.fin 0, XReal.fin 10, true⟩ 1
      = .ok ⟨XReal.fin (-1), XReal.fin 11, true⟩ := by
  have hlt : XReal.blt (XReal.addFin (XReal.fin 10) 1)
      (XReal.subFin (XReal.fin 0) 1) = false := by
    simp only [XReal.addFin, XReal.subFin, XReal.blt,
      decide_eq_false_iff_not]
    norm_num
  have h := (inflate_behaviour ⟨XReal.fin 0, XReal.fin 10, true⟩ 1).1 rfl hlt
  rw [h]
  norm_num [XReal.subFin, XReal.addFin]

/-- C8 counterexample: the constructible interval `(-inf, -inf)` has
`is_open() = True` although its end bound is negative infinity, not positive
infinity as the claim requires (`np.isinf` accepts both signs). -/
theorem is_open_counterexample :
    Interval.is_open ⟨XReal.negInf, XReal.negInf, true⟩ = true ∧
    (⟨XReal.negInf, XReal.negInf, true⟩ : Interval).end_ = XReal.negInf ∧
    Interval.init XReal.negInf XReal.negInf
      = .ok ⟨XReal.negInf, XReal.negInf, true⟩ :=
  ⟨rfl, rfl, rfl⟩

/-- C8 (amended): `is_open()` returns true iff the start bound is negative
infinity and the end bound is infinite of either sign. -/
theorem is_open_iff (i : Interval) :
    i.is_open = true ↔
      (i.start = XReal.negInf ∧
        (i.end_ = XReal.negInf ∨ i.end_ = XReal.posInf)) := by
  obtain ⟨s, e, n⟩ := i
  cases s <;> cases e <;>
    simp [Interval.is_open, XReal.isneginf, XReal.isinf]

/-- C9: `contains_param` and `contains_point` on any plane fail with the
unsupported-operation signal `NotImplementedError` for every argument; they
never return a boolean. -/
theorem plane_contains_raises_unsupported (p : Plane) (param : ParamUV)
    (point : Vec3) :
    p.contains_param param = .error .notImplementedError ∧
    p.contains_point point = .error .notImplementedError :=
  ⟨rfl, rfl⟩

/-- C10: comparing a `Plane` with any non-`Plane` value raises the beartype
type-validation error, while comparing an `Interval` with any non-`Interval`
value returns `NotImplemented`; the two value types treat foreign operands
differently. -/
theorem eq_foreign_operand_behaviour (p : Plane) (i : Interval)
    (o o' : PyObj)
    (hp : ∀ q, o ≠ PyObj.plane q) (hi : ∀ j, o' ≠ PyObj.interval j) :
    Plane.eq p o = .error .typeValidationError ∧
    Interval.eq i o' = none := by
  constructor
  · cases o with
    | plane q => exact absurd rfl (hp q)
    | interval j => rfl
    | other tag => rfl
  · cases o' with
    | interval j => exact absurd rfl (hi j)
    | plane q => rfl
    | other tag => rfl

/-- Witness for C10: comparing a concrete plane and a concrete interval with
an unrelated object. -/
theorem eq_foreign_operand_behaviour_witness :
    Plane.eq ⟨⟨0, 0, 0⟩, ⟨1, 0, 0⟩, ⟨0, 0, 1⟩⟩ (PyObj.other 0)
        = .error .typeValidationError ∧
    Interval.eq ⟨XReal.fin 0, XReal.fin 1, true⟩ (PyObj.other 0) = none :=
  eq_foreign_operand_behaviour ⟨⟨0, 0, 0⟩, ⟨1, 0, 0⟩, ⟨0, 0, 1⟩⟩
    ⟨XReal.fin 0, XReal.fin 1, true⟩ (PyObj.other 0) (PyObj.other 0)
    (fun q h => PyObj.noConfusion h) (fun j h => PyObj.noConfusion h)

end PyGeom
